import Mathlib

/-!
Shallow embedding of the metric-generation core of the Hotstar Scaling
Simulation (src/app/page.tsx).  JavaScript numbers are modelled as exact
rationals (ℚ); `Math.floor` is `Int.floor`, `Math.ceil` is `Int.ceil`, and
the single `Math.random()` draw of a tick is an explicit parameter
`r : ℚ` with `0 ≤ r < 1`.  The wall-clock timestamp string produced by
`new Date().toLocaleTimeString(...)` is an ambient input and is passed in
as an explicit `ts : String` parameter.
-/

namespace HotstarSim

/-- `LogEntry.level` values, from the `LogEntry` interface in page.tsx. -/
inductive LogLevel where
  | INFO
  | WARN
  | ERROR
  | CRITICAL
  deriving DecidableEq, Repr

/-- `LogEntry.component` values, from the `LogEntry` interface in page.tsx. -/
inductive Component where
  | API
  | CACHE
  | K8S
  | LB
  | INFRA
  deriving DecidableEq, Repr

/-- The `MetricData` interface of page.tsx.  All numeric fields are stored
already floored to integers by `generateMetrics`. -/
structure MetricData where
  timestamp : String
  requests : ℤ
  cacheHits : ℤ
  cacheMisses : ℤ
  pods : ℤ
  cpuUsage : ℤ
  responseTime : ℤ
  activeUsers : ℤ
  deriving DecidableEq, Repr

/-- The `LogEntry` interface of page.tsx. -/
structure LogEntry where
  timestamp : String
  level : LogLevel
  component : Component
  message : String
  deriving DecidableEq, Repr

/-- The mutable component state of page.tsx: the `useState` cells
`isRunning`, `currentLoad`, `metrics`, `logs`, `pods`, `cacheHitRate`. -/
structure SimState where
  isRunning : Bool
  currentLoad : ℚ
  metrics : List MetricData
  logs : List LogEntry
  pods : ℤ
  cacheHitRate : ℚ
  deriving DecidableEq, Repr

/-- Initial values of the `useState` cells in page.tsx (lines 56-61). -/
def initState : SimState :=
  { isRunning := false
    currentLoad := 150000
    metrics := []
    logs := []
    pods := 50
    cacheHitRate := 92 }

/-- `requests = baseRequests + Math.random() * 50000` (page.tsx line 74),
with `baseRequests = currentLoad`. -/
def requestsOf (currentLoad r : ℚ) : ℚ :=
  currentLoad + r * 50000

/-- `hitRate = Math.max(88, cacheHitRate - (currentLoad / 1000000) * 5)`
(page.tsx line 77). -/
def hitRateOf (cacheHitRate currentLoad : ℚ) : ℚ :=
  max 88 (cacheHitRate - (currentLoad / 1000000) * 5)

/-- `cacheHits = Math.floor(requests * (hitRate / 100))` (page.tsx line 78). -/
def cacheHitsOf (requests hitRate : ℚ) : ℤ :=
  ⌊requests * (hitRate / 100)⌋

/-- `cacheMisses = Math.floor(requests - cacheHits)` (page.tsx line 79). -/
def cacheMissesOf (requests : ℚ) (cacheHits : ℤ) : ℤ :=
  ⌊requests - (cacheHits : ℚ)⌋

/-- `targetPods = Math.ceil(requests / 3000)` (page.tsx line 82). -/
def targetPodsOf (requests : ℚ) : ℤ :=
  ⌈requests / 3000⌉

/-- `newPods = Math.min(Math.max(50, targetPods), 2500)` (page.tsx line 83). -/
def newPodsOf (requests : ℚ) : ℤ :=
  min (max 50 (targetPodsOf requests)) 2500

/-- `cpuUsage = Math.min(95, (requests / (newPods * 3000)) * 100)`
(page.tsx line 87). -/
def cpuUsageOf (requests : ℚ) (newPods : ℤ) : ℚ :=
  min 95 ((requests / ((newPods : ℚ) * 3000)) * 100)

/-- `responseTime = baseResponseTime * loadFactor * (2.5 - cacheFactor)`
with `baseResponseTime = 45`, `loadFactor = Math.max(1, requests / 200000)`,
`cacheFactor = hitRate / 100` (page.tsx lines 90-93). -/
def responseTimeOf (requests hitRate : ℚ) : ℚ :=
  45 * max 1 (requests / 200000) * (2.5 - hitRate / 100)

/-- `activeUsers = Math.floor(requests / 3.5)` (page.tsx line 97). -/
def activeUsersOf (requests : ℚ) : ℤ :=
  ⌊requests / 3.5⌋

/-- The `newMetric` record built by `generateMetrics` (page.tsx lines 99-108). -/
def sampleOf (ts : String) (s : SimState) (r : ℚ) : MetricData :=
  let requests := requestsOf s.currentLoad r
  let hitRate := hitRateOf s.cacheHitRate s.currentLoad
  let cacheHits := cacheHitsOf requests hitRate
  { timestamp := ts
    requests := ⌊requests⌋
    cacheHits := cacheHits
    cacheMisses := cacheMissesOf requests cacheHits
    pods := newPodsOf requests
    cpuUsage := ⌊cpuUsageOf requests (newPodsOf requests)⌋
    responseTime := ⌊responseTimeOf requests hitRate⌋
    activeUsers := activeUsersOf requests }

/-- The pod-scaling conditional of `generateMetrics` (page.tsx lines 115-122):
fires when `newPods !== pods`. -/
def podLogOf (ts : String) (s : SimState) (r : ℚ) : List LogEntry :=
  let newPods := newPodsOf (requestsOf s.currentLoad r)
  if newPods ≠ s.pods then
    [{ timestamp := ts
       level := if newPods > s.pods then LogLevel.INFO else LogLevel.WARN
       component := Component.K8S
       message := "Scaling " ++ (if newPods > s.pods then "up" else "down") ++
         " to " ++ toString newPods ++ " pods (was " ++ toString s.pods ++ ")" }]
  else []

/-- The CPU conditional of `generateMetrics` (page.tsx lines 124-131):
fires when `cpuUsage > 80`. -/
def cpuLogOf (ts : String) (s : SimState) (r : ℚ) : List LogEntry :=
  let cpuUsage := cpuUsageOf (requestsOf s.currentLoad r)
    (newPodsOf (requestsOf s.currentLoad r))
  if cpuUsage > 80 then
    [{ timestamp := ts
       level := LogLevel.WARN
       component := Component.K8S
       message := "High CPU usage: " ++ toString ⌊cpuUsage⌋ ++ "%" }]
  else []

/-- The cache conditional of `generateMetrics` (page.tsx lines 133-140):
fires when `hitRate < 90`. -/
def cacheLogOf (ts : String) (s : SimState) : List LogEntry :=
  let hitRate := hitRateOf s.cacheHitRate s.currentLoad
  if hitRate < 90 then
    [{ timestamp := ts
       level := LogLevel.WARN
       component := Component.CACHE
       message := "Cache hit rate dropped to " ++ toString ⌊hitRate⌋ ++
         "% (critical at IPL scale)" }]
  else []

/-- The response-time conditional of `generateMetrics` (page.tsx lines
142-149): fires when `responseTime > 150`. -/
def apiLogOf (ts : String) (s : SimState) (r : ℚ) : List LogEntry :=
  let responseTime := responseTimeOf (requestsOf s.currentLoad r)
    (hitRateOf s.cacheHitRate s.currentLoad)
  if responseTime > 150 then
    [{ timestamp := ts
       level := LogLevel.ERROR
       component := Component.API
       message := "High response time: " ++ toString ⌊responseTime⌋ ++ "ms" }]
  else []

/-- The load-balancer conditional of `generateMetrics` (page.tsx lines
151-158): fires when `requests > 500000`. -/
def lbLogOf (ts : String) (s : SimState) (r : ℚ) : List LogEntry :=
  let requests := requestsOf s.currentLoad r
  if requests > 500000 then
    [{ timestamp := ts
       level := LogLevel.INFO
       component := Component.LB
       message := "High traffic detected: " ++ toString ⌊requests / 1000⌋ ++
         "K req/s" }]
  else []

/-- The peak-traffic conditional of `generateMetrics` (page.tsx lines
160-167): fires when `requests > 2000000`. -/
def infraLogOf (ts : String) (s : SimState) (r : ℚ) : List LogEntry :=
  let requests := requestsOf s.currentLoad r
  if requests > 2000000 then
    [{ timestamp := ts
       level := LogLevel.CRITICAL
       component := Component.INFRA
       message := "PEAK IPL TRAFFIC: " ++ toString ⌊requests / 1000000⌋ ++
         "M req/s - " ++ toString ⌊(activeUsersOf requests : ℚ) / 10000000⌋ ++
         " crore users" }]
  else []

/-- The `newLogs` array of one tick: the six independent conditionals of
`generateMetrics`, in source order (page.tsx lines 113-167). -/
def newLogsOf (ts : String) (s : SimState) (r : ℚ) : List LogEntry :=
  podLogOf ts s r ++ cpuLogOf ts s r ++ cacheLogOf ts s ++
    apiLogOf ts s r ++ lbLogOf ts s r ++ infraLogOf ts s r

/-- One tick: the `generateMetrics` callback (page.tsx lines 64-172).
`setMetrics((prev) => [...prev.slice(-19), newMetric])` keeps the last 19
previous samples and appends the new one; `setPods(newPods)` stores the new
pod count; `setLogs((prev) => [...newLogs, ...prev.slice(0, 49)])` runs only
when `newLogs.length > 0` and prepends the new entries to the first 49 old
ones. -/
def generateMetrics (ts : String) (s : SimState) (r : ℚ) : SimState :=
  let newMetric := sampleOf ts s r
  let newLogs := newLogsOf ts s r
  { s with
    metrics := s.metrics.drop (s.metrics.length - 19) ++ [newMetric]
    pods := newPodsOf (requestsOf s.currentLoad r)
    logs := if newLogs.isEmpty then s.logs else newLogs ++ s.logs.take 49 }

/-- `startSimulation` (page.tsx line 190). -/
def startSimulation (s : SimState) : SimState :=
  { s with isRunning := true }

/-- `stopSimulation` (page.tsx line 191). -/
def stopSimulation (s : SimState) : SimState :=
  { s with isRunning := false }

/-- `resetSimulation` (page.tsx lines 192-198). -/
def resetSimulation (s : SimState) : SimState :=
  { s with isRunning := false
           metrics := []
           logs := []
           pods := 50
           currentLoad := 150000 }

/-- The immediate effect of `simulateTrafficSpike` (page.tsx line 201). -/
def simulateTrafficSpike (s : SimState) : SimState :=
  { s with currentLoad := 3000000 }

/-- The deferred `setTimeout` callback of `simulateTrafficSpike`
(page.tsx line 202), firing 15 seconds later. -/
def spikeRevert (s : SimState) : SimState :=
  { s with currentLoad := 800000 }

/-- States reachable from the initial render: any interleaving of ticks
(which the interval fires only while `isRunning`), the four control
buttons (the spike button is disabled unless running) and the deferred
spike revert.  Each tick's random draw lies in `[0, 1)`. -/
inductive Reachable : SimState → Prop where
  | init : Reachable initState
  | tick (s : SimState) (ts : String) (r : ℚ) :
      Reachable s → s.isRunning = true → 0 ≤ r → r < 1 →
      Reachable (generateMetrics ts s r)
  | start (s : SimState) : Reachable s → Reachable (startSimulation s)
  | stop (s : SimState) : Reachable s → Reachable (stopSimulation s)
  | reset (s : SimState) : Reachable s → Reachable (resetSimulation s)
  | spike (s : SimState) : Reachable s → s.isRunning = true →
      Reachable (simulateTrafficSpike s)
  | revert (s : SimState) : Reachable s → Reachable (spikeRevert s)

/-- A session prefix used below: press Start, press the spike button. -/
def spikeState : SimState := simulateTrafficSpike (startSimulation initState)

/-- Nine consecutive ticks after the spike, with random draws alternating
between 0 and 1/2 so the rounded pod target flips between 1000 and 1009
and all six log conditionals fire on every tick. -/
def cex1 : SimState := generateMetrics "" spikeState 0

def cex2 : SimState := generateMetrics "" cex1 (1/2)

def cex3 : SimState := generateMetrics "" cex2 0

def cex4 : SimState := generateMetrics "" cex3 (1/2)

def cex5 : SimState := generateMetrics "" cex4 0

def cex6 : SimState := generateMetrics "" cex5 (1/2)

def cex7 : SimState := generateMetrics "" cex6 0

def cex8 : SimState := generateMetrics "" cex7 (1/2)

def cex9 : SimState := generateMetrics "" cex8 0

/-- A state whose stored pod count differs from the next tick's target. -/
def c7State : SimState := { initState with pods := 100 }

/-- Each of the six log conditionals emits at most one entry, so a tick
emits at most six log entries. -/
theorem newLogsOf_length_le (ts : String) (s : SimState) (r : ℚ) :
    (newLogsOf ts s r).length ≤ 6 := by
  have h1 : (podLogOf ts s r).length ≤ 1 := by
    simp only [podLogOf]; split <;> simp
  have h2 : (cpuLogOf ts s r).length ≤ 1 := by
    simp only [cpuLogOf]; split <;> simp
  have h3 : (cacheLogOf ts s).length ≤ 1 := by
    simp only [cacheLogOf]; split <;> simp
  have h4 : (apiLogOf ts s r).length ≤ 1 := by
    simp only [apiLogOf]; split <;> simp
  have h5 : (lbLogOf ts s r).length ≤ 1 := by
    simp only [lbLogOf]; split <;> simp
  have h6 : (infraLogOf ts s r).length ≤ 1 := by
    simp only [infraLogOf]; split <;> simp
  simp only [newLogsOf, List.length_append]
  omega

/-- Invariant: the log buffer of a reachable state holds at most 55 entries
(at most 6 new entries prepended to at most 49 retained old ones). -/
theorem reachable_logs_length_le (s : SimState) (hs : Reachable s) :
    s.logs.length ≤ 55 := by
  induction hs with
  | init => simp [initState]
  | tick t ts r ht hrun hr0 hr1 ih =>
      have h6 := newLogsOf_length_le ts t r
      show (if (newLogsOf ts t r).isEmpty then t.logs
          else newLogsOf ts t r ++ t.logs.take 49).length ≤ 55
      split
      · exact ih
      · simp only [List.length_append, List.length_take]
        omega
  | start t ht ih => exact ih
  | stop t ht ih => exact ih
  | reset t ht ih => simp [resetSimulation]
  | spike t ht hrun ih => exact ih
  | revert t ht ih => exact ih

/-- Invariant: the metrics buffer of a reachable state holds at most 20
samples. -/
theorem reachable_metrics_length_le (s : SimState) (hs : Reachable s) :
    s.metrics.length ≤ 20 := by
  induction hs with
  | init => simp [initState]
  | tick t ts r ht hrun hr0 hr1 ih =>
      show (t.metrics.drop (t.metrics.length - 19) ++ [sampleOf ts t r]).length ≤ 20
      simp only [List.length_append, List.length_drop, List.length_singleton]
      omega
  | start t ht ih => exact ih
  | stop t ht ih => exact ih
  | reset t ht ih => simp [resetSimulation]
  | spike t ht hrun ih => exact ih
  | revert t ht ih => exact ih

/-- Invariant: no operation ever writes the `cacheHitRate` cell, so every
reachable state keeps its initial value 92. -/
theorem reachable_cacheHitRate (s : SimState) (hs : Reachable s) :
    s.cacheHitRate = 92 := by
  induction hs with
  | init => rfl
  | tick t ts r ht hrun hr0 hr1 ih => exact ih
  | start t ht ih => exact ih
  | stop t ht ih => exact ih
  | reset t ht ih => exact ih
  | spike t ht hrun ih => exact ih
  | revert t ht ih => exact ih

/-- Claim C4: `resetSimulation` always produces `running = false`,
`currentLoad = 150000`, `pods = 50` and empties both histories, for every
prior state. -/
theorem C4_reset_state (s : SimState) :
    (resetSimulation s).isRunning = false ∧
    (resetSimulation s).currentLoad = 150000 ∧
    (resetSimulation s).pods = 50 ∧
    (resetSimulation s).metrics = [] ∧
    (resetSimulation s).logs = [] :=
  ⟨rfl, rfl, rfl, rfl, rfl⟩

/-- Claim C5: `simulateTrafficSpike` sets `currentLoad = 3000000`
immediately, and the deferred revert step then sets
`currentLoad = 800000`. -/
theorem C5_spike_then_revert (s : SimState) :
    (simulateTrafficSpike s).currentLoad = 3000000 ∧
    (spikeRevert (simulateTrafficSpike s)).currentLoad = 800000 :=
  ⟨rfl, rfl⟩

/-- Claim C10: the cache-hit-rate baseline is never mutated: it is 92 in
every reachable state, and every tick and every control action leaves it
unchanged. -/
theorem C10_cacheHitRate_never_mutated (s : SimState) (hs : Reachable s)
    (ts : String) (r : ℚ) :
    s.cacheHitRate = 92 ∧
    (generateMetrics ts s r).cacheHitRate = s.cacheHitRate ∧
    (startSimulation s).cacheHitRate = s.cacheHitRate ∧
    (stopSimulation s).cacheHitRate = s.cacheHitRate ∧
    (resetSimulation s).cacheHitRate = s.cacheHitRate ∧
    (simulateTrafficSpike s).cacheHitRate = s.cacheHitRate ∧
    (spikeRevert s).cacheHitRate = s.cacheHitRate :=
  ⟨reachable_cacheHitRate s hs, rfl, rfl, rfl, rfl, rfl, rfl⟩

/-- Witness for C10 at the initial state with a zero draw. -/
theorem C10_witness :
    initState.cacheHitRate = 92 ∧
    (generateMetrics "" initState 0).cacheHitRate = initState.cacheHitRate ∧
    (startSimulation initState).cacheHitRate = initState.cacheHitRate ∧
    (stopSimulation initState).cacheHitRate = initState.cacheHitRate ∧
    (resetSimulation initState).cacheHitRate = initState.cacheHitRate ∧
    (simulateTrafficSpike initState).cacheHitRate = initState.cacheHitRate ∧
    (spikeRevert initState).cacheHitRate = initState.cacheHitRate :=
  C10_cacheHitRate_never_mutated initState Reachable.init "" 0

/-- Claim C2: for every emitted sample, `cacheHits + cacheMisses` equals the
sample's `requests` field, which is the floor of the raw requests value. -/
theorem C2_cache_partition (ts : String) (s : SimState) (r : ℚ)
    (hload : 0 ≤ s.currentLoad) (hr0 : 0 ≤ r) (hr1 : r < 1) :
    (sampleOf ts s r).cacheHits + (sampleOf ts s r).cacheMisses
      = (sampleOf ts s r).requests ∧
    (sampleOf ts s r).requests = ⌊requestsOf s.currentLoad r⌋ := by
  refine ⟨?_, rfl⟩
  simp only [sampleOf]
  rw [cacheMissesOf, Int.floor_sub_int]
  omega

/-- Witness for C2 at the initial state with a zero draw. -/
theorem C2_witness :
    (sampleOf "" initState 0).cacheHits + (sampleOf "" initState 0).cacheMisses
      = (sampleOf "" initState 0).requests ∧
    (sampleOf "" initState 0).requests = ⌊requestsOf initState.currentLoad 0⌋ :=
  C2_cache_partition "" initState 0 (by norm_num [initState]) le_rfl
    (by norm_num)

/-- Claim C3: every emitted sample has `50 ≤ pods ≤ 2500` and
`0 ≤ cpuUsage ≤ 95`, for every `currentLoad ≥ 0` and any draw in
`[0, 1)`. -/
theorem C3_pods_cpu_in_range (ts : String) (s : SimState) (r : ℚ)
    (hload : 0 ≤ s.currentLoad) (hr0 : 0 ≤ r) (hr1 : r < 1) :
    50 ≤ (sampleOf ts s r).pods ∧ (sampleOf ts s r).pods ≤ 2500 ∧
    0 ≤ (sampleOf ts s r).cpuUsage ∧ (sampleOf ts s r).cpuUsage ≤ 95 := by
  have hq : 0 ≤ requestsOf s.currentLoad r :=
    add_nonneg hload (mul_nonneg hr0 (by norm_num))
  have hp1 : (50:ℤ) ≤ newPodsOf (requestsOf s.currentLoad r) := by
    rw [newPodsOf]
    exact le_min (le_max_left _ _) (by norm_num)
  have hp2 : newPodsOf (requestsOf s.currentLoad r) ≤ 2500 := min_le_right _ _
  have hden : (0:ℚ) ≤ (newPodsOf (requestsOf s.currentLoad r) : ℚ) * 3000 := by
    have h0 : (0:ℤ) ≤ newPodsOf (requestsOf s.currentLoad r) :=
      le_trans (by norm_num) hp1
    exact mul_nonneg (by exact_mod_cast h0) (by norm_num)
  have hcpu0 : 0 ≤ cpuUsageOf (requestsOf s.currentLoad r)
      (newPodsOf (requestsOf s.currentLoad r)) := by
    rw [cpuUsageOf]
    exact le_min (by norm_num) (mul_nonneg (div_nonneg hq hden) (by norm_num))
  have hcpu95 : cpuUsageOf (requestsOf s.currentLoad r)
      (newPodsOf (requestsOf s.currentLoad r)) ≤ 95 := min_le_left _ _
  refine ⟨hp1, hp2, Int.floor_nonneg.mpr hcpu0, ?_⟩
  have hmono := Int.floor_mono hcpu95
  have h95 : ⌊(95:ℚ)⌋ = 95 := by norm_num
  show ⌊cpuUsageOf (requestsOf s.currentLoad r)
      (newPodsOf (requestsOf s.currentLoad r))⌋ ≤ 95
  omega

/-- Witness for C3 at the initial state with a zero draw. -/
theorem C3_witness :
    50 ≤ (sampleOf "" initState 0).pods ∧ (sampleOf "" initState 0).pods ≤ 2500 ∧
    0 ≤ (sampleOf "" initState 0).cpuUsage ∧ (sampleOf "" initState 0).cpuUsage ≤ 95 :=
  C3_pods_cpu_in_range "" initState 0 (by norm_num [initState]) le_rfl
    (by norm_num)

/-- Claim C9: every emitted `responseTime` is nonnegative; with the baseline
at 92 the hit rate stays between 88 and 92, keeping the factor
`2.5 - hitRate/100` positive. -/
theorem C9_responseTime_nonneg (ts : String) (s : SimState) (r : ℚ)
    (hload : 0 ≤ s.currentLoad) (hbase : s.cacheHitRate = 92)
    (hr0 : 0 ≤ r) (hr1 : r < 1) :
    0 ≤ (sampleOf ts s r).responseTime ∧
    88 ≤ hitRateOf s.cacheHitRate s.currentLoad ∧
    hitRateOf s.cacheHitRate s.currentLoad ≤ 92 := by
  have h88 : (88:ℚ) ≤ hitRateOf s.cacheHitRate s.currentLoad := le_max_left _ _
  have h92 : hitRateOf s.cacheHitRate s.currentLoad ≤ 92 := by
    rw [hitRateOf, hbase]
    apply max_le (by norm_num)
    have hd : 0 ≤ (s.currentLoad / 1000000) * 5 :=
      mul_nonneg (div_nonneg hload (by norm_num)) (by norm_num)
    linarith
  refine ⟨?_, h88, h92⟩
  have hrt : 0 ≤ responseTimeOf (requestsOf s.currentLoad r)
      (hitRateOf s.cacheHitRate s.currentLoad) := by
    rw [responseTimeOf]
    apply mul_nonneg (mul_nonneg (by norm_num) ?_) ?_
    · exact le_trans zero_le_one (le_max_left _ _)
    · linarith
  exact Int.floor_nonneg.mpr hrt

/-- Witness for C9 at the initial state with a zero draw. -/
theorem C9_witness :
    0 ≤ (sampleOf "" initState 0).responseTime ∧
    88 ≤ hitRateOf initState.cacheHitRate initState.currentLoad ∧
    hitRateOf initState.cacheHitRate initState.currentLoad ≤ 92 :=
  C9_responseTime_nonneg "" initState 0 (by norm_num [initState]) rfl le_rfl
    (by norm_num)

/-- Claim C6: with `currentLoad = 150000`, baseline 92 and a zero draw, one
tick yields `requests = 150000`, `targetPods = 50`, `newPods = 50`, a raw
CPU ratio of 100 and a stored `cpuUsage` clamped to 95. -/
theorem C6_baseline_scenario :
    (sampleOf "" initState 0).requests = 150000 ∧
    targetPodsOf (requestsOf initState.currentLoad 0) = 50 ∧
    newPodsOf (requestsOf initState.currentLoad 0) = 50 ∧
    (requestsOf initState.currentLoad 0 /
      ((newPodsOf (requestsOf initState.currentLoad 0) : ℚ) * 3000)) * 100
      = 100 ∧
    (sampleOf "" initState 0).cpuUsage = 95 := by
  refine ⟨?_, ?_, ?_, ?_, ?_⟩ <;>
    norm_num [sampleOf, requestsOf, initState, hitRateOf, cacheHitsOf,
      cacheMissesOf, targetPodsOf, newPodsOf, cpuUsageOf, responseTimeOf,
      activeUsersOf, max_def, min_def]

/-- Claim C7: when the new pod count differs from the stored one, the pod
conditional emits exactly one K8S entry, INFO when scaling up and WARN when
scaling down, and the tick stores the new pod count for the next
comparison. -/
theorem C7_pod_change_log (ts : String) (s : SimState) (r : ℚ)
    (h : newPodsOf (requestsOf s.currentLoad r) ≠ s.pods) :
    (∃ e : LogEntry, podLogOf ts s r = [e] ∧ e.component = Component.K8S ∧
      e.level = if s.pods < newPodsOf (requestsOf s.currentLoad r)
        then LogLevel.INFO else LogLevel.WARN) ∧
    (generateMetrics ts s r).pods = newPodsOf (requestsOf s.currentLoad r) := by
  refine ⟨?_, rfl⟩
  simp only [podLogOf]
  rw [if_pos h]
  exact ⟨_, rfl, rfl, rfl⟩

/-- Witness for C7: at load 150000 with a zero draw the target is 50 pods,
differing from the stored count 100, so a WARN scale-down entry fires. -/
theorem C7_witness :
    (∃ e : LogEntry, podLogOf "" c7State 0 = [e] ∧
      e.component = Component.K8S ∧
      e.level = if c7State.pods < newPodsOf (requestsOf c7State.currentLoad 0)
        then LogLevel.INFO else LogLevel.WARN) ∧
    (generateMetrics "" c7State 0).pods
      = newPodsOf (requestsOf c7State.currentLoad 0) :=
  C7_pod_change_log "" c7State 0 (by
    have h50 : newPodsOf (requestsOf c7State.currentLoad 0) = 50 := by
      norm_num [c7State, initState, newPodsOf, targetPodsOf, requestsOf,
        max_def, min_def]
    have h100 : c7State.pods = 100 := rfl
    omega)

/-- Claim C8: the metrics buffer of a reachable state holds at most 20
samples; a tick appends the new sample at the end, keeping the whole buffer
when it has at most 19 samples and evicting exactly the oldest one when it
is full. -/
theorem C8_metrics_fifo (s : SimState) (hs : Reachable s) (ts : String)
    (r : ℚ) :
    s.metrics.length ≤ 20 ∧
    (generateMetrics ts s r).metrics.length ≤ 20 ∧
    (s.metrics.length ≤ 19 →
      (generateMetrics ts s r).metrics = s.metrics ++ [sampleOf ts s r]) ∧
    (s.metrics.length = 20 →
      (generateMetrics ts s r).metrics
        = s.metrics.drop 1 ++ [sampleOf ts s r]) := by
  have hinv := reachable_metrics_length_le s hs
  refine ⟨hinv, ?_, ?_, ?_⟩
  · show (s.metrics.drop (s.metrics.length - 19) ++ [sampleOf ts s r]).length
        ≤ 20
    simp only [List.length_append, List.length_drop, List.length_singleton]
    omega
  · intro h19
    show s.metrics.drop (s.metrics.length - 19) ++ [sampleOf ts s r]
        = s.metrics ++ [sampleOf ts s r]
    have h0 : s.metrics.length - 19 = 0 := by omega
    rw [h0, List.drop_zero]
  · intro h20
    show s.metrics.drop (s.metrics.length - 19) ++ [sampleOf ts s r]
        = s.metrics.drop 1 ++ [sampleOf ts s r]
    rw [h20]

/-- Witness for C8 at the initial state with a zero draw. -/
theorem C8_witness :
    initState.metrics.length ≤ 20 ∧
    (generateMetrics "" initState 0).metrics.length ≤ 20 ∧
    (initState.metrics.length ≤ 19 →
      (generateMetrics "" initState 0).metrics
        = initState.metrics ++ [sampleOf "" initState 0]) ∧
    (initState.metrics.length = 20 →
      (generateMetrics "" initState 0).metrics
        = initState.metrics.drop 1 ++ [sampleOf "" initState 0]) :=
  C8_metrics_fifo initState Reachable.init "" 0

/-- During a spike (`currentLoad = 3000000`, baseline 92), every tick whose
pod target differs from the stored pod count fires all six log conditionals,
so the tick prepends exactly 6 entries to the first 49 retained old ones. -/
theorem spike_tick_logs (ts : String) (s : SimState) (r : ℚ)
    (hload : s.currentLoad = 3000000) (hbase : s.cacheHitRate = 92)
    (hr0 : 0 ≤ r) (hr1 : r < 1)
    (hpods : newPodsOf (requestsOf s.currentLoad r) ≠ s.pods) :
    (generateMetrics ts s r).logs.length = 6 + min 49 s.logs.length := by
  have hq1 : (3000000:ℚ) ≤ requestsOf s.currentLoad r := by
    rw [requestsOf, hload]; linarith
  have hq2 : requestsOf s.currentLoad r < 3050000 := by
    rw [requestsOf, hload]; linarith
  have ht1 : (1000:ℤ) ≤ targetPodsOf (requestsOf s.currentLoad r) := by
    rw [targetPodsOf]
    have h999 : (999:ℤ) < ⌈requestsOf s.currentLoad r / 3000⌉ := by
      rw [Int.lt_ceil]
      push_cast
      rw [lt_div_iff₀ (by norm_num : (0:ℚ) < 3000)]
      linarith
    omega
  have ht2 : targetPodsOf (requestsOf s.currentLoad r) ≤ 1017 := by
    rw [targetPodsOf, Int.ceil_le]
    push_cast
    rw [div_le_iff₀ (by norm_num : (0:ℚ) < 3000)]
    linarith
  have hnp : newPodsOf (requestsOf s.currentLoad r)
      = targetPodsOf (requestsOf s.currentLoad r) := by
    rw [newPodsOf, max_eq_right (by omega), min_eq_left (by omega)]
  have hcast1 : (1000:ℚ) ≤ (newPodsOf (requestsOf s.currentLoad r) : ℚ) := by
    rw [hnp]; exact_mod_cast ht1
  have hcast2 : (newPodsOf (requestsOf s.currentLoad r) : ℚ) ≤ 1017 := by
    rw [hnp]; exact_mod_cast ht2
  have hhit : hitRateOf s.cacheHitRate s.currentLoad = 88 := by
    rw [hitRateOf, hload, hbase]; norm_num [max_def]
  have hcache : hitRateOf s.cacheHitRate s.currentLoad < 90 := by
    rw [hhit]; norm_num
  have hcpu : cpuUsageOf (requestsOf s.currentLoad r)
      (newPodsOf (requestsOf s.currentLoad r)) > 80 := by
    rw [cpuUsageOf, gt_iff_lt, lt_min_iff]
    refine ⟨by norm_num, ?_⟩
    have hd : (0:ℚ) < (newPodsOf (requestsOf s.currentLoad r) : ℚ) * 3000 := by
      linarith
    rw [div_mul_eq_mul_div, lt_div_iff₀ hd]
    linarith
  have hrt : responseTimeOf (requestsOf s.currentLoad r)
      (hitRateOf s.cacheHitRate s.currentLoad) > 150 := by
    rw [hhit, responseTimeOf]
    rw [max_eq_right (by
      rw [le_div_iff₀ (by norm_num : (0:ℚ) < 200000)]; linarith)]
    rw [gt_iff_lt]
    have hlin : 45 * (requestsOf s.currentLoad r / 200000) * (2.5 - 88 / 100)
        = requestsOf s.currentLoad r * (729 / 2000000) := by ring
    rw [hlin]
    linarith
  have hlb : requestsOf s.currentLoad r > 500000 := by linarith
  have hinfra : requestsOf s.currentLoad r > 2000000 := by linarith
  have e1 : (podLogOf ts s r).length = 1 := by
    simp only [podLogOf]; rw [if_pos hpods]; rfl
  have e2 : (cpuLogOf ts s r).length = 1 := by
    simp only [cpuLogOf]; rw [if_pos hcpu]; rfl
  have e3 : (cacheLogOf ts s).length = 1 := by
    simp only [cacheLogOf]; rw [if_pos hcache]; rfl
  have e4 : (apiLogOf ts s r).length = 1 := by
    simp only [apiLogOf]; rw [if_pos hrt]; rfl
  have e5 : (lbLogOf ts s r).length = 1 := by
    simp only [lbLogOf]; rw [if_pos hlb]; rfl
  have e6 : (infraLogOf ts s r).length = 1 := by
    simp only [infraLogOf]; rw [if_pos hinfra]; rfl
  have h6 : (newLogsOf ts s r).length = 6 := by
    simp only [newLogsOf, List.length_append, e1, e2, e3, e4, e5, e6]
  have hne : newLogsOf ts s r ≠ [] := by
    intro hnil; rw [hnil] at h6; simp at h6
  have hie : (newLogsOf ts s r).isEmpty = false := by
    cases hl : newLogsOf ts s r with
    | nil => exact absurd hl hne
    | cons a l => rfl
  show (if (newLogsOf ts s r).isEmpty then s.logs
      else newLogsOf ts s r ++ s.logs.take 49).length
      = 6 + min 49 s.logs.length
  rw [hie]
  simp [List.length_append, List.length_take, h6]

/-- The draw 1/2 during a spike rounds up to 1009 pods. -/
theorem newPods_spike_half : newPodsOf (requestsOf 3000000 (1/2)) = 1009 := by
  have hc : targetPodsOf (requestsOf 3000000 (1/2)) = 1009 := by
    rw [targetPodsOf, requestsOf, Int.ceil_eq_iff]
    constructor <;> norm_num
  rw [newPodsOf, hc]
  decide

/-- The draw 0 during a spike targets exactly 1000 pods. -/
theorem newPods_spike_zero : newPodsOf (requestsOf 3000000 0) = 1000 := by
  norm_num [newPodsOf, requestsOf, targetPodsOf, max_def, min_def]

/-- Claim C1, counterexample: after Start, Spike and nine ticks with draws
alternating between 0 and 1/2, the reachable state `cex9` holds 54 log
entries, exceeding the claimed bound of 50. -/
theorem C1_counterexample : Reachable cex9 ∧ 50 < cex9.logs.length := by
  have np0 : newPodsOf (requestsOf spikeState.currentLoad 0) = 1000 :=
    newPods_spike_zero
  have nph : newPodsOf (requestsOf 3000000 (1/2)) = 1009 := newPods_spike_half
  have half0 : (0:ℚ) ≤ 1/2 := by norm_num
  have half1 : (1:ℚ)/2 < 1 := by norm_num
  have z1 : (0:ℚ) < 1 := by norm_num
  -- pod counts stored after each tick
  have p1 : cex1.pods = 1000 := np0
  have p2 : cex2.pods = 1009 := nph
  have p3 : cex3.pods = 1000 := newPods_spike_zero
  have p4 : cex4.pods = 1009 := newPods_spike_half
  have p5 : cex5.pods = 1000 := newPods_spike_zero
  have p6 : cex6.pods = 1009 := newPods_spike_half
  have p7 : cex7.pods = 1000 := newPods_spike_zero
  have p8 : cex8.pods = 1009 := newPods_spike_half
  -- the pod target differs from the stored count on every tick
  have hne1 : newPodsOf (requestsOf spikeState.currentLoad 0)
      ≠ spikeState.pods := by
    have hp : spikeState.pods = 50 := rfl
    omega
  have hne2 : newPodsOf (requestsOf cex1.currentLoad (1/2)) ≠ cex1.pods := by
    have hx : newPodsOf (requestsOf cex1.currentLoad (1/2)) = 1009 := nph
    omega
  have hne3 : newPodsOf (requestsOf cex2.currentLoad 0) ≠ cex2.pods := by
    have hx : newPodsOf (requestsOf cex2.currentLoad 0) = 1000 :=
      newPods_spike_zero
    omega
  have hne4 : newPodsOf (requestsOf cex3.currentLoad (1/2)) ≠ cex3.pods := by
    have hx : newPodsOf (requestsOf cex3.currentLoad (1/2)) = 1009 := nph
    omega
  have hne5 : newPodsOf (requestsOf cex4.currentLoad 0) ≠ cex4.pods := by
    have hx : newPodsOf (requestsOf cex4.currentLoad 0) = 1000 :=
      newPods_spike_zero
    omega
  have hne6 : newPodsOf (requestsOf cex5.currentLoad (1/2)) ≠ cex5.pods := by
    have hx : newPodsOf (requestsOf cex5.currentLoad (1/2)) = 1009 := nph
    omega
  have hne7 : newPodsOf (requestsOf cex6.currentLoad 0) ≠ cex6.pods := by
    have hx : newPodsOf (requestsOf cex6.currentLoad 0) = 1000 :=
      newPods_spike_zero
    omega
  have hne8 : newPodsOf (requestsOf cex7.currentLoad (1/2)) ≠ cex7.pods := by
    have hx : newPodsOf (requestsOf cex7.currentLoad (1/2)) = 1009 := nph
    omega
  have hne9 : newPodsOf (requestsOf cex8.currentLoad 0) ≠ cex8.pods := by
    have hx : newPodsOf (requestsOf cex8.currentLoad 0) = 1000 :=
      newPods_spike_zero
    omega
  -- log-buffer lengths after each tick
  have l1 : cex1.logs.length = 6 := by
    have h := spike_tick_logs "" spikeState 0 rfl rfl le_rfl z1 hne1
    rw [show spikeState.logs.length = 0 from rfl] at h
    show (generateMetrics "" spikeState 0).logs.length = 6
    omega
  have l2 : cex2.logs.length = 12 := by
    have h := spike_tick_logs "" cex1 (1/2) rfl rfl half0 half1 hne2
    rw [l1] at h
    show (generateMetrics "" cex1 (1/2)).logs.length = 12
    omega
  have l3 : cex3.logs.length = 18 := by
    have h := spike_tick_logs "" cex2 0 rfl rfl le_rfl z1 hne3
    rw [l2] at h
    show (generateMetrics "" cex2 0).logs.length = 18
    omega
  have l4 : cex4.logs.length = 24 := by
    have h := spike_tick_logs "" cex3 (1/2) rfl rfl half0 half1 hne4
    rw [l3] at h
    show (generateMetrics "" cex3 (1/2)).logs.length = 24
    omega
  have l5 : cex5.logs.length = 30 := by
    have h := spike_tick_logs "" cex4 0 rfl rfl le_rfl z1 hne5
    rw [l4] at h
    show (generateMetrics "" cex4 0).logs.length = 30
    omega
  have l6 : cex6.logs.length = 36 := by
    have h := spike_tick_logs "" cex5 (1/2) rfl rfl half0 half1 hne6
    rw [l5] at h
    show (generateMetrics "" cex5 (1/2)).logs.length = 36
    omega
  have l7 : cex7.logs.length = 42 := by
    have h := spike_tick_logs "" cex6 0 rfl rfl le_rfl z1 hne7
    rw [l6] at h
    show (generateMetrics "" cex6 0).logs.length = 42
    omega
  have l8 : cex8.logs.length = 48 := by
    have h := spike_tick_logs "" cex7 (1/2) rfl rfl half0 half1 hne8
    rw [l7] at h
    show (generateMetrics "" cex7 (1/2)).logs.length = 48
    omega
  have l9 : cex9.logs.length = 54 := by
    have h := spike_tick_logs "" cex8 0 rfl rfl le_rfl z1 hne9
    rw [l8] at h
    show (generateMetrics "" cex8 0).logs.length = 54
    omega
  refine ⟨?_, by omega⟩
  have R0 : Reachable spikeState :=
    Reachable.spike _ (Reachable.start _ Reachable.init) rfl
  have R1 : Reachable cex1 := Reachable.tick spikeState "" 0 R0 rfl le_rfl z1
  have R2 : Reachable cex2 := Reachable.tick cex1 "" (1/2) R1 rfl half0 half1
  have R3 : Reachable cex3 := Reachable.tick cex2 "" 0 R2 rfl le_rfl z1
  have R4 : Reachable cex4 := Reachable.tick cex3 "" (1/2) R3 rfl half0 half1
  have R5 : Reachable cex5 := Reachable.tick cex4 "" 0 R4 rfl le_rfl z1
  have R6 : Reachable cex6 := Reachable.tick cex5 "" (1/2) R5 rfl half0 half1
  have R7 : Reachable cex7 := Reachable.tick cex6 "" 0 R6 rfl le_rfl z1
  have R8 : Reachable cex8 := Reachable.tick cex7 "" (1/2) R7 rfl half0 half1
  exact Reachable.tick cex8 "" 0 R8 rfl le_rfl z1

/-- Claim C1, amended: the log buffer is newest-first — a tick that fires at
least one entry prepends all its new entries before the retained old ones,
of which at most 49 are kept — and its length is bounded by 55, not 50:
up to 6 entries can fire in one tick on top of 49 retained ones. -/
theorem C1_logs_newest_first_bounded (s : SimState) (hs : Reachable s)
    (ts : String) (r : ℚ) :
    s.logs.length ≤ 55 ∧
    (generateMetrics ts s r).logs.length ≤ 55 ∧
    ((newLogsOf ts s r).length > 0 →
      (generateMetrics ts s r).logs
        = newLogsOf ts s r ++ s.logs.take 49) := by
  have hinv := reachable_logs_length_le s hs
  have h6 := newLogsOf_length_le ts s r
  refine ⟨hinv, ?_, ?_⟩
  · show (if (newLogsOf ts s r).isEmpty then s.logs
        else newLogsOf ts s r ++ s.logs.take 49).length ≤ 55
    split
    · exact hinv
    · simp only [List.length_append, List.length_take]
      omega
  · intro hpos
    have hne : newLogsOf ts s r ≠ [] := by
      intro hnil; rw [hnil] at hpos; simp at hpos
    have hie : (newLogsOf ts s r).isEmpty = false := by
      cases hl : newLogsOf ts s r with
      | nil => exact absurd hl hne
      | cons a l => rfl
    show (if (newLogsOf ts s r).isEmpty then s.logs
        else newLogsOf ts s r ++ s.logs.take 49)
        = newLogsOf ts s r ++ s.logs.take 49
    rw [hie]
    simp

/-- Witness for the amended C1 at the initial state with a zero draw. -/
theorem C1_amended_witness :
    initState.logs.length ≤ 55 ∧
    (generateMetrics "" initState 0).logs.length ≤ 55 ∧
    ((newLogsOf "" initState 0).length > 0 →
      (generateMetrics "" initState 0).logs
        = newLogsOf "" initState 0 ++ initState.logs.take 49) :=
  C1_logs_newest_first_bounded initState Reachable.init "" 0

end HotstarSim
